import Mathlib

/-!
Verification of the notion_tasks_report repository (src/main.py) against its
natural-language specification.  The Python source is shallowly embedded:
pure fragments become Lean functions, the file system becomes explicit
association lists, wall-clock time becomes integer parameters, and fallible
code returns `Except`/`Option`.  Dates are modelled as integers (day index),
timestamps as integers (minutes or seconds, named per definition).
-/

set_option maxRecDepth 16384

namespace NotionTasksReport

/-! ## Task rows and the five classifier filters (src/main.py lines 96-203)

A `TaskRow` carries the three properties the filters read: `Status` (a status
name string), `Priority` (a status name string) and `Due` (an optional date,
modelled as a day index; `none` = the date property is empty).  The five
filter dictionaries built in `get_tasks` are embedded as boolean predicates
using the operator semantics of the remote store's filter language
(`does_not_equal`, `equals`, `on_or_before`, `on_or_after`, `before`,
`is_empty`); a date condition never matches a row whose date is empty. -/

structure TaskRow where
  status : String
  priority : String
  due : Option Int
deriving DecidableEq, Repr

/-- Lines 109-130: not Done AND Priority = High AND Due on_or_before today. -/
def high_priority_filter (today : Int) (t : TaskRow) : Bool :=
  (t.status != "Done") && (t.priority == "High") &&
    (match t.due with
     | some d => decide (d ≤ today)
     | none => false)

/-- Lines 133-148: not Done AND Due equals today. -/
def due_today_filter (today : Int) (t : TaskRow) : Bool :=
  (t.status != "Done") && (t.due == some today)

/-- Lines 151-167: not Done AND Due on_or_before today AND on_or_after
today − 7 (`last_week = today - timedelta(days=7)`, line 99). -/
def overdue_filter (today : Int) (t : TaskRow) : Bool :=
  (t.status != "Done") &&
    (match t.due with
     | some d => decide (today - 7 ≤ d ∧ d ≤ today)
     | none => false)

/-- Lines 170-185: not Done AND Due is_empty. -/
def no_due_date_filter (t : TaskRow) : Bool :=
  (t.status != "Done") && t.due.isNone

/-- Lines 188-203: not Done AND Due before today − 7. -/
def older_overdue_filter (today : Int) (t : TaskRow) : Bool :=
  (t.status != "Done") &&
    (match t.due with
     | some d => decide (d < today - 7)
     | none => false)

/-- The remote store runs a query by returning the rows of the database that
satisfy the filter predicate, in the store's native order. -/
def notion_query (db : List TaskRow) (f : TaskRow → Bool) : List TaskRow :=
  db.filter f

/-- C1: the claim asserts the Due Today and Overdue filters are mutually
exclusive.  They are not: a not-completed row due exactly today satisfies
both `due_today_filter` and `overdue_filter` (whose range `today − 7 ≤ due
≤ today` includes today), so the row is returned by both queries.  Concrete
counterexample: status "In Progress", priority "Low", due = today = 0. -/
theorem c1_counterexample :
    let t : TaskRow := ⟨"In Progress", "Low", some 0⟩
    due_today_filter 0 t = true ∧ overdue_filter 0 t = true ∧
      t ∈ notion_query [t] (due_today_filter 0) ∧
      t ∈ notion_query [t] (overdue_filter 0) := by
  refine ⟨rfl, rfl, ?_, ?_⟩ <;> decide

/-- C1 (amended): every task row whose due date is exactly today and whose
status is not "Done" satisfies the Due Today filter, but the filters are not
mutually exclusive: the same row also satisfies the Overdue (last 7 days)
filter, whose date range includes today, and hence appears in both query
results. -/
theorem c1_due_today_also_overdue (today : Int) (db : List TaskRow) (t : TaskRow)
    (hmem : t ∈ db) (hstatus : t.status ≠ "Done") (hdue : t.due = some today) :
    t ∈ notion_query db (due_today_filter today) ∧
      t ∈ notion_query db (overdue_filter today) := by
  have hs : (t.status != "Done") = true := by
    simpa [bne_iff_ne] using hstatus
  constructor
  · refine List.mem_filter.mpr ⟨hmem, ?_⟩
    simp [due_today_filter, hs, hdue]
  · refine List.mem_filter.mpr ⟨hmem, ?_⟩
    simp only [overdue_filter, hs, hdue, Bool.true_and]
    simp only [decide_eq_true_eq]
    omega

/-- C1 amended, checked at a concrete input: the row with status
"In Progress", priority "Low", due day 5 and today = 5 lands in both the
Due Today and the Overdue query results. -/
theorem c1_due_today_also_overdue_witness :
    let t : TaskRow := ⟨"In Progress", "Low", some 5⟩
    t ∈ notion_query [t] (due_today_filter 5) ∧
      t ∈ notion_query [t] (overdue_filter 5) :=
  c1_due_today_also_overdue 5 [⟨"In Progress", "Low", some 5⟩]
    ⟨"In Progress", "Low", some 5⟩ (by decide) (by decide) rfl

/-! ## Task normalization and the classifier (src/main.py lines 92-293)

`process_task` (lines 205-224) reads a raw result record.  A `RawTask`
carries the fields that function accesses: `title` is
`properties["Name"]["title"]` as a list of text contents (`none` when the
`Name`/`title` chain is missing, in which case the chained `.get` defaults
produce "Unknown Task"; `some []` is an explicitly empty title array, on
which `[0]` raises IndexError and the record is dropped); `relation` is the
list of related project ids (default `[]`); `statusName` is the resolved
status name (`none` when missing, defaulted to "Unknown"). -/

structure RawTask where
  title : Option (List String)
  url : String
  relation : List String
  statusName : Option String
deriving DecidableEq, Repr

/-- A normalized task tuple `(task_name, task_url, project_id, status)`
as returned by `process_task` (line 221). -/
structure TaskRecord where
  name : String
  url : String
  project_id : Option String
  status : String
deriving DecidableEq, Repr

/-- Lines 205-224: normalize one raw record; any exception inside (here the
IndexError on an explicitly empty title array) yields `none` and the record
is dropped by the caller's filter. -/
def process_task (t : RawTask) : Option TaskRecord :=
  match t.title with
  | some [] => none
  | some (n :: _) => some ⟨n, t.url, t.relation.head?, t.statusName.getD "Unknown"⟩
  | none => some ⟨"Unknown Task", t.url, t.relation.head?, t.statusName.getD "Unknown"⟩

/-- The outcome of one remote query: `none` when the query raised (its
`except` branch logs and leaves the bucket at its initial empty value),
`some rs` when it returned raw result records. -/
def QueryResult := Option (List RawTask)

/-- Lines 227-258: a detail bucket is the processed results of its query,
`[]` when the query failed. -/
def bucket_of (q : QueryResult) : List TaskRecord :=
  match q with
  | none => []
  | some rs => rs.filterMap process_task

/-- Lines 261-281: a count bucket is `len(results)`, `0` when the query
failed. -/
def count_of (q : QueryResult) : Nat :=
  match q with
  | none => 0
  | some rs => rs.length

/-- Lines 92-293, `get_tasks`.  The environment is `none` when an unexpected
error is raised outside the five per-query handlers (the outer `except` at
lines 291-293 then returns the all-empty tuple), and otherwise carries the
five query outcomes in report order: high priority, due today, overdue,
no due date, older overdue. -/
def get_tasks
    (env : Option (QueryResult × QueryResult × QueryResult × QueryResult × QueryResult)) :
    List TaskRecord × List TaskRecord × List TaskRecord × Nat × Nat :=
  match env with
  | none => ([], [], [], 0, 0)
  | some (q1, q2, q3, q4, q5) =>
    let high_priority := match q1 with
      | none => []
      | some rs => rs.filterMap process_task
    let due_today := match q2 with
      | none => []
      | some rs => rs.filterMap process_task
    let overdue := match q3 with
      | none => []
      | some rs => rs.filterMap process_task
    let no_due_date_count := match q4 with
      | none => 0
      | some rs => rs.length
    let older_overdue_count := match q5 with
      | none => 0
      | some rs => rs.length
    (high_priority, due_today, overdue, no_due_date_count, older_overdue_count)

/-! ## Report rendering (src/main.py lines 314-356)

The project cache's `projects` mapping is an association list from project
id to display name; `projects_get` is Python's `dict.get(project_id,
"Unknown Project")` where `project_id` may be `None` (never a key of a
string-keyed dict). -/

def projects_get (projects : List (String × String)) : Option String → Option String
  | none => none
  | some pid => (projects.find? (fun kv => kv.1 == pid)).map (·.2)

/-- Python's `str.replace(c, "")` for a single-character needle removes
every occurrence of that character. -/
def py_remove_char (c : Char) (s : String) : String :=
  ⟨s.data.filter (fun a => a ≠ c)⟩

/-- Line 337: `task_line.replace("[", "").replace("]", "")`. -/
def strip_brackets (s : String) : String :=
  py_remove_char ']' (py_remove_char '[' s)

/-- Lines 326-334: the rich (Markdown) line for one task.  The project
suffix is appended only when the defaulted lookup differs from
"Unknown Project"; the status suffix only when the status string is truthy
(nonempty) and not "Unknown". -/
def task_line_md (projects : List (String × String)) (t : TaskRecord) : String :=
  let project_name := (projects_get projects t.project_id).getD "Unknown Project"
  let base := "- [ ] [" ++ t.name ++ "](" ++ t.url ++ ")"
  let withProj :=
    if project_name ≠ "Unknown Project" then base ++ " (Project: " ++ project_name ++ ")"
    else base
  if t.status ≠ "" ∧ t.status ≠ "Unknown" then withProj ++ ", Status: " ++ t.status
  else withProj

/-- Line 337: the plain-text line is the rich line with every bracket
character removed. -/
def task_line_txt (projects : List (String × String)) (t : TaskRecord) : String :=
  strip_brackets (task_line_md projects t)

/-- Lines 319-344, `write_section`, Markdown side: nothing is written when
the bucket is empty; otherwise a heading, a line per task, then a blank
line. -/
def section_md (title : String) (projects : List (String × String))
    (tasks : List TaskRecord) : String :=
  if tasks.isEmpty then ""
  else "## " ++ title ++ "\n" ++
    String.join (tasks.map (fun t => task_line_md projects t ++ "\n")) ++ "\n"

/-- Lines 319-344, `write_section`, plain-text side. -/
def section_txt (title : String) (projects : List (String × String))
    (tasks : List TaskRecord) : String :=
  if tasks.isEmpty then ""
  else title ++ ":\n" ++
    String.join (tasks.map (fun t => task_line_txt projects t ++ "\n")) ++ "\n"

/-- Lines 350-356: the two trailing note lines, each written only when its
count is truthy (nonzero). -/
def older_note_md (older_overdue_count : Nat) : String :=
  if older_overdue_count ≠ 0 then
    "\n*Note: " ++ toString older_overdue_count ++ " tasks are overdue for more than 7 days.*\n"
  else ""

def older_note_txt (older_overdue_count : Nat) : String :=
  if older_overdue_count ≠ 0 then
    "\nNote: " ++ toString older_overdue_count ++ " tasks are overdue for more than 7 days.\n"
  else ""

def no_due_note_md (no_due_date_count : Nat) : String :=
  if no_due_date_count ≠ 0 then
    "\n*Note: " ++ toString no_due_date_count ++ " tasks have no Due.*\n"
  else ""

def no_due_note_txt (no_due_date_count : Nat) : String :=
  if no_due_date_count ≠ 0 then
    "\nNote: " ++ toString no_due_date_count ++ " tasks have no Due.\n"
  else ""

/-- Line 315: the shared title line; `ts` is the formatted timestamp. -/
def report_title (ts : String) : String :=
  "# Task Report (" ++ ts ++ ")\n\n"

/-- Lines 314-356: the full Markdown report content. -/
def report_md (ts : String) (projects : List (String × String))
    (high due over : List TaskRecord) (no_due older : Nat) : String :=
  report_title ts ++
    section_md "High Priority" projects high ++
    section_md "Due Today" projects due ++
    section_md "Overdue (Last 7 Days)" projects over ++
    older_note_md older ++
    no_due_note_md no_due

/-- Lines 314-356: the full plain-text report content. -/
def report_txt (ts : String) (projects : List (String × String))
    (high due over : List TaskRecord) (no_due older : Nat) : String :=
  report_title ts ++
    section_txt "High Priority" projects high ++
    section_txt "Due Today" projects due ++
    section_txt "Overdue (Last 7 Days)" projects over ++
    older_note_txt older ++
    no_due_note_txt no_due

/-- The shape a rendered rich line takes when no project suffix is
appended (used to state which suffixes `write_section` emits). -/
def task_line_md_without_project (t : TaskRecord) : String :=
  let base := "- [ ] [" ++ t.name ++ "](" ++ t.url ++ ")"
  if t.status ≠ "" ∧ t.status ≠ "Unknown" then base ++ ", Status: " ++ t.status
  else base

/-- The shape a rendered rich line takes when the project suffix for
display name `p` is appended. -/
def task_line_md_with_project (t : TaskRecord) (p : String) : String :=
  let base := "- [ ] [" ++ t.name ++ "](" ++ t.url ++ ")" ++ " (Project: " ++ p ++ ")"
  if t.status ≠ "" ∧ t.status ≠ "Unknown" then base ++ ", Status: " ++ t.status
  else base

/-- C2 (counterexample): for the single task named "Fix bug" with url
"http://x/1", project "p1" resolving to "Alpha" and status "High", the rich
line is exactly as claimed, but the plain line is not the claimed
`- Fix bug(...)`: removing the `[`/`]` characters from `- [ ] [Fix bug](...)`
leaves the three spaces of the stripped checkbox, giving `-   Fix bug(...)`. -/
theorem c2_counterexample :
    task_line_md [("p1", "Alpha")] ⟨"Fix bug", "http://x/1", some "p1", "High"⟩ =
      "- [ ] [Fix bug](http://x/1) (Project: Alpha), Status: High" ∧
    task_line_txt [("p1", "Alpha")] ⟨"Fix bug", "http://x/1", some "p1", "High"⟩ ≠
      "- Fix bug(http://x/1) (Project: Alpha), Status: High" := by
  constructor <;> decide

/-- C2 (amended): the same rendering yields the claimed rich line, the plain
line `-   Fix bug(http://x/1) (Project: Alpha), Status: High` (with the
three spaces left behind by the removed checkbox and link brackets), and the
plain line is the rich line with every `[` and `]` character removed; the
Due Today section for this one-task bucket consists of the heading, the rich
line and a blank line. -/
theorem c2_round_trip :
    task_line_md [("p1", "Alpha")] ⟨"Fix bug", "http://x/1", some "p1", "High"⟩ =
      "- [ ] [Fix bug](http://x/1) (Project: Alpha), Status: High" ∧
    task_line_txt [("p1", "Alpha")] ⟨"Fix bug", "http://x/1", some "p1", "High"⟩ =
      "-   Fix bug(http://x/1) (Project: Alpha), Status: High" ∧
    task_line_txt [("p1", "Alpha")] ⟨"Fix bug", "http://x/1", some "p1", "High"⟩ =
      strip_brackets "- [ ] [Fix bug](http://x/1) (Project: Alpha), Status: High" ∧
    section_md "Due Today" [("p1", "Alpha")] [⟨"Fix bug", "http://x/1", some "p1", "High"⟩] =
      "## Due Today\n- [ ] [Fix bug](http://x/1) (Project: Alpha), Status: High\n\n" := by
  refine ⟨by decide, by decide, by decide, by decide⟩

/-- C9: when the task's `project_id` is absent (`None`) or not a key of the
project cache, the defaulted lookup returns "Unknown Project", the guard on
line 331 rejects it, and the rendered line (rich and plain) is exactly the
no-project form; moreover every rendered rich line is either the no-project
form or carries a display name taken from the cache that differs from
"Unknown Project" — the renderer never concatenates the literal
"Unknown Project" into a line. -/
theorem c9_project_suffix (projects : List (String × String)) (t : TaskRecord) :
    (projects_get projects t.project_id = none →
      task_line_md projects t = task_line_md_without_project t ∧
      task_line_txt projects t = strip_brackets (task_line_md_without_project t)) ∧
    (task_line_md projects t = task_line_md_without_project t ∨
      ∃ p, projects_get projects t.project_id = some p ∧ p ≠ "Unknown Project" ∧
        task_line_md projects t = task_line_md_with_project t p) := by
  constructor
  · intro h
    constructor
    · simp [task_line_md, task_line_md_without_project, h]
    · simp [task_line_txt, task_line_md, task_line_md_without_project, h]
  · cases hcase : projects_get projects t.project_id with
    | none =>
      left
      simp [task_line_md, task_line_md_without_project, hcase]
    | some p =>
      by_cases hp : p = "Unknown Project"
      · left
        simp [task_line_md, task_line_md_without_project, hcase, hp]
      · right
        exact ⟨p, rfl, hp, by simp [task_line_md, task_line_md_with_project, hcase, hp]⟩

/-- C9, checked at a concrete input: with a cache holding only "p1", a task
pointing at the unknown project "p2" renders without any project suffix. -/
theorem c9_project_suffix_witness :
    task_line_md [("p1", "Alpha")] ⟨"Fix bug", "http://x/1", some "p2", "High"⟩ =
      task_line_md_without_project ⟨"Fix bug", "http://x/1", some "p2", "High"⟩ ∧
    task_line_txt [("p1", "Alpha")] ⟨"Fix bug", "http://x/1", some "p2", "High"⟩ =
      strip_brackets
        (task_line_md_without_project ⟨"Fix bug", "http://x/1", some "p2", "High"⟩) :=
  (c9_project_suffix [("p1", "Alpha")] ⟨"Fix bug", "http://x/1", some "p2", "High"⟩).1
    (by decide)

/-- C5: the classifier's five buckets are computed independently, one from
each query outcome; a query that fails (outcome `none`) leaves its bucket
empty (or its count zero) while every other bucket is exactly what its own
query outcome determines, unaffected by the failure. -/
theorem c5_bucket_failure_isolated (q1 q2 q3 q4 q5 : QueryResult) :
    get_tasks (some (q1, q2, q3, q4, q5)) =
      (bucket_of q1, bucket_of q2, bucket_of q3, count_of q4, count_of q5) ∧
    get_tasks (some (none, q2, q3, q4, q5)) =
      ([], bucket_of q2, bucket_of q3, count_of q4, count_of q5) ∧
    get_tasks (some (q1, none, q3, q4, q5)) =
      (bucket_of q1, [], bucket_of q3, count_of q4, count_of q5) ∧
    get_tasks (some (q1, q2, none, q4, q5)) =
      (bucket_of q1, bucket_of q2, [], count_of q4, count_of q5) ∧
    get_tasks (some (q1, q2, q3, none, q5)) =
      (bucket_of q1, bucket_of q2, bucket_of q3, 0, count_of q5) ∧
    get_tasks (some (q1, q2, q3, q4, none)) =
      (bucket_of q1, bucket_of q2, bucket_of q3, count_of q4, 0) := by
  refine ⟨rfl, rfl, rfl, rfl, rfl, rfl⟩

/-- C10: when an unexpected error strikes `get_tasks` outside the five
per-query handlers, the outer handler returns three empty lists and two zero
counts rather than raising; rendering that all-empty result produces a
report consisting of the title line only, in both formats. -/
theorem c10_outer_failure_empty_report (ts : String) (projects : List (String × String)) :
    get_tasks none = ([], [], [], 0, 0) ∧
    report_md ts projects (get_tasks none).1 (get_tasks none).2.1 (get_tasks none).2.2.1
      (get_tasks none).2.2.2.1 (get_tasks none).2.2.2.2 = report_title ts ∧
    report_txt ts projects (get_tasks none).1 (get_tasks none).2.1 (get_tasks none).2.2.1
      (get_tasks none).2.2.2.1 (get_tasks none).2.2.2.2 = report_title ts := by
  refine ⟨rfl, ?_, ?_⟩ <;>
    simp [get_tasks, report_md, report_txt, section_md, section_txt,
      older_note_md, older_note_txt, no_due_note_md, no_due_note_txt]

/-! ## Project cache refresh (src/main.py lines 68-90)

A remote project entry is modelled by the fields the refresh reads: `id`,
and `name` = `properties["Name"]["title"]` as a list of text contents
(`none` when the `Name` property is absent — the comprehension's
`if "Name" in project["properties"]` then skips the entry; `some []` when
the property is present with an empty title array — indexing `[0]` then
raises and the whole refresh fails).  The cache file is `Option (mtime ×
projects)`; times are in minutes. -/

structure ProjectEntry where
  id : String
  name : Option (List String)
deriving DecidableEq, Repr

/-- Lines 81-85: the dict comprehension over the query results.  An entry
without a `Name` property is skipped; an entry whose title array is empty
raises IndexError, which nothing catches, so the whole build fails. -/
def build_projects : List ProjectEntry → Except Unit (List (String × String))
  | [] => .ok []
  | e :: rest =>
    match e.name with
    | none => build_projects rest
    | some [] => .error ()
    | some (n :: _) => (build_projects rest).map (fun m => (e.id, n) :: m)

/-- Lines 68-90, `refresh_projects_info`.  `cache` is the persisted cache
file (`none` when absent) with its mtime; `remote` is what the remote query
would return.  The result records whether a remote query was issued and the
resulting cache file state (`Except.error` when the refresh raised, leaving
the file untouched in the caller's view but the run aborted). -/
def refresh_projects_info (now : Int)
    (cache : Option (Int × List (String × String))) (remote : List ProjectEntry) :
    Bool × Except Unit (Option (Int × List (String × String))) :=
  match cache with
  | some (mtime, m) =>
    if now - mtime < 24 * 60 then (false, .ok (some (mtime, m)))
    else (true, (build_projects remote).map (fun ps => some (now, ps)))
  | none => (true, (build_projects remote).map (fun ps => some (now, ps)))

/-- C3: with a persisted cache strictly younger than 24 hours the refresh
issues no remote query and leaves the cache unchanged; with a cache aged
24 hours or more, or with no cache at all, it issues the query. -/
theorem c3_cache_freshness (now mtime : Int) (m : List (String × String))
    (remote : List ProjectEntry) :
    (now - mtime < 24 * 60 →
      refresh_projects_info now (some (mtime, m)) remote = (false, .ok (some (mtime, m)))) ∧
    (24 * 60 ≤ now - mtime →
      (refresh_projects_info now (some (mtime, m)) remote).1 = true) ∧
    (refresh_projects_info now none remote).1 = true := by
  refine ⟨fun h => ?_, fun h => ?_, rfl⟩
  · simp only [refresh_projects_info, if_pos h]
  · simp only [refresh_projects_info, if_neg (by omega : ¬ now - mtime < 24 * 60)]

/-- C3 at the claim's concrete boundary ages: a cache aged 23h59m (1439
minutes) is returned untouched with no query; one aged 24h01m (1441
minutes) triggers a query. -/
theorem c3_cache_freshness_witness :
    refresh_projects_info 1439 (some (0, [("p1", "Alpha")])) [] =
      (false, .ok (some (0, [("p1", "Alpha")]))) ∧
    (refresh_projects_info 1441 (some (0, [("p1", "Alpha")])) []).1 = true :=
  ⟨(c3_cache_freshness 1439 0 [("p1", "Alpha")] []).1 (by decide),
   (c3_cache_freshness 1441 0 [("p1", "Alpha")] []).2.1 (by decide)⟩

/-- The id-to-name pairs of the entries that actually carry a usable name
(a `Name` property with a nonempty title array). -/
def named_pairs (entries : List ProjectEntry) : List (String × String) :=
  entries.filterMap (fun e =>
    match e.name with
    | some (n :: _) => some (e.id, n)
    | _ => none)

/-- C6 (counterexample): a refresh over a single entry whose `Name`
property is present but whose title array is empty does not produce a
cache at all — the extraction `["title"][0]` raises and the whole refresh
fails, where the claim promised a persisted cache containing the (here
empty) set of named pairs. -/
theorem c6_counterexample :
    refresh_projects_info 2000 none [⟨"p1", some []⟩] = (true, .error ()) := rfl

/-- C6 (amended): entries lacking the `Name` property are skipped without
failing the refresh: whenever no entry has a present-but-empty title array,
a cold-start (and likewise a stale-cache) refresh succeeds and persists
exactly the id-to-name pairs of the entries that have a usable name. -/
theorem c6_skip_missing_name (now mtime : Int) (m : List (String × String))
    (entries : List ProjectEntry)
    (hok : ∀ e ∈ entries, e.name ≠ some []) :
    refresh_projects_info now none entries = (true, .ok (some (now, named_pairs entries))) ∧
    (24 * 60 ≤ now - mtime →
      refresh_projects_info now (some (mtime, m)) entries =
        (true, .ok (some (now, named_pairs entries)))) := by
  have hbuild : build_projects entries = .ok (named_pairs entries) := by
    induction entries with
    | nil => rfl
    | cons e rest ih =>
      have he := hok e (List.mem_cons_self e rest)
      have hrest : ∀ x ∈ rest, x.name ≠ some [] :=
        fun x hx => hok x (List.mem_cons_of_mem e hx)
      cases hname : e.name with
      | none =>
        simp [build_projects, hname, named_pairs, ih hrest,
          show (named_pairs rest = rest.filterMap _) from rfl]
      | some l =>
        cases l with
        | nil => exact absurd hname he
        | cons n t =>
          simp [build_projects, hname, named_pairs, ih hrest, Except.map]
  constructor
  · simp only [refresh_projects_info, hbuild, Except.map]
  · intro h
    simp only [refresh_projects_info, if_neg (by omega : ¬ now - mtime < 24 * 60),
      hbuild, Except.map]

/-- C6 amended, checked at a concrete input: one entry without a `Name`
property and one named "Beta"; the refresh succeeds and keeps only the
named pair. -/
theorem c6_skip_missing_name_witness :
    refresh_projects_info 5000 none [⟨"a", none⟩, ⟨"b", some ["Beta"]⟩] =
      (true, .ok (some (5000, [("b", "Beta")]))) :=
  (c6_skip_missing_name 5000 0 [] [⟨"a", none⟩, ⟨"b", some ["Beta"]⟩] (by decide)).1

/-! ## File names and a file-metadata model (src/main.py lines 48-66, 305-312)

Archival and cleanup act on the target directory, modelled as an
association list from file name to mtime (in seconds).  `fs_lookup` /
`fs_erase` / `fs_set` are the usual association-list operations (first
binding wins; a real directory never holds two files of the same name). -/

def REPORT_FILE_MD : String := "target/tasks_report.md"

def REPORT_FILE_TXT : String := "target/tasks_report.txt"

/-- Line 308: `f"{TARGET_DIR}/tasks_report_{timestamp}.md"`. -/
def archive_md (date : String) : String :=
  "target/tasks_report_" ++ date ++ ".md"

/-- Line 309: `f"{TARGET_DIR}/tasks_report_{timestamp}.txt"`. -/
def archive_txt (date : String) : String :=
  "target/tasks_report_" ++ date ++ ".txt"

def fs_lookup {α : Type} (fs : List (String × α)) (name : String) : Option α :=
  (fs.find? (fun f => f.1 == name)).map (·.2)

def fs_erase {α : Type} (fs : List (String × α)) (name : String) : List (String × α) :=
  fs.filter (fun f => f.1 != name)

def fs_set {α : Type} (fs : List (String × α)) (name : String) (v : α) : List (String × α) :=
  (name, v) :: fs_erase fs name

/-- Whether `p` is a leading run of `s` (character-list level). -/
def chars_lead : List Char → List Char → Bool
  | [], _ => true
  | _ :: _, [] => false
  | a :: p, b :: s => a == b && chars_lead p s

/-- Whether `p` is a trailing run of `s`. -/
def chars_trail (p s : List Char) : Bool :=
  chars_lead p.reverse s.reverse

/-- One of the two glob patterns of line 58: `target/tasks_report_*{ext}`
matches names made of the fixed stem, then any characters without a path
separator, then the extension. -/
def glob_report (ext : String) (name : String) : Bool :=
  chars_lead "target/tasks_report_".data name.data &&
    chars_trail ext.data name.data &&
    decide ("target/tasks_report_".data.length + ext.data.length ≤ name.data.length) &&
    (name.data.drop "target/tasks_report_".data.length).all (fun c => c ≠ '/')

def matches_report_glob (name : String) : Bool :=
  glob_report ".md" name || glob_report ".txt" name

/-- Line 61: `(current_time - file_time).days`; Python's `timedelta.days`
is the floor of the difference in whole days. -/
def age_days (now mtime : Int) : Int :=
  (now - mtime).fdiv 86400

def should_delete (now : Int) (name : String) (mtime : Int) : Bool :=
  matches_report_glob name && decide (7 < age_days now mtime)

/-- Lines 55-66, `cleanup_old_files`: every globbed file whose whole-day
age exceeds 7 is removed; a removal error (modelled by `remove_ok name =
false`) is logged and skipped, leaving that file in place and the pass
running.  The result is the list of surviving files. -/
def cleanup_old_files (now : Int) (remove_ok : String → Bool)
    (files : List (String × Int)) : List (String × Int) :=
  files.filter (fun f => !(should_delete now f.1 f.2 && remove_ok f.1))

/-- C7 (counterexample): a dated report file whose mtime is 7 days and 12
hours in the past (648000 seconds) is more than 7 days old, yet the
cleanup retains it: `timedelta.days` floors the age to 7 whole days and
the comparison `> 7` fails. -/
theorem c7_counterexample :
    matches_report_glob "target/tasks_report_2026_10_01.md" = true ∧
    (7 * 86400 : Int) < 648000 - 0 ∧
    cleanup_old_files 648000 (fun _ => true) [("target/tasks_report_2026_10_01.md", 0)] =
      [("target/tasks_report_2026_10_01.md", 0)] := by
  refine ⟨by decide, by decide, by decide⟩

/-- C7 (amended): a file survives the cleanup pass iff it is not a dated
report file at least 8 whole days old whose removal succeeds — equivalently
the pass deletes exactly the matching files with `now − mtime ≥ 8·86400`
seconds whose removal does not error; files whose removal errors are
skipped and the rest of the pass is unaffected.  The closed conjuncts check
the claim's examples: an 8-day-old file is deleted, a 6-day-old one is
retained, and an erroring deletion leaves only that file behind while the
other old file is still deleted. -/
theorem c7_cleanup_retention (now : Int) (rok : String → Bool)
    (files : List (String × Int)) (f : String × Int) :
    (f ∈ cleanup_old_files now rok files ↔
      f ∈ files ∧
        ¬(matches_report_glob f.1 = true ∧ 8 * 86400 ≤ now - f.2 ∧ rok f.1 = true)) ∧
    cleanup_old_files (8 * 86400) (fun _ => true)
      [("target/tasks_report_2026_10_01.md", 0)] = [] ∧
    cleanup_old_files (6 * 86400) (fun _ => true)
      [("target/tasks_report_2026_10_01.md", 0)] =
      [("target/tasks_report_2026_10_01.md", 0)] ∧
    cleanup_old_files (9 * 86400) (fun n => n != "target/tasks_report_2026_10_01.md")
      [("target/tasks_report_2026_10_01.md", 0), ("target/tasks_report_2026_10_01.txt", 0)] =
      [("target/tasks_report_2026_10_01.md", 0)] := by
  refine ⟨?_, by decide, by decide, by decide⟩
  have hage : 7 < age_days now f.2 ↔ 8 * 86400 ≤ now - f.2 := by
    rw [age_days, Int.fdiv_eq_ediv _ (by norm_num : (0 : Int) ≤ 86400)]
    have h8 : 8 ≤ (now - f.2) / 86400 ↔ 8 * 86400 ≤ now - f.2 :=
      Int.le_ediv_iff_mul_le (by norm_num)
    omega
  rw [cleanup_old_files, List.mem_filter]
  constructor
  · rintro ⟨hmem, hkeep⟩
    refine ⟨hmem, fun ⟨hm, hold, hr⟩ => ?_⟩
    rw [should_delete, hm, hr] at hkeep
    simp [decide_eq_true_eq] at hkeep
    have h7 : 7 < age_days now f.2 := hage.mpr hold
    omega
  · rintro ⟨hmem, hnot⟩
    refine ⟨hmem, ?_⟩
    rw [should_delete]
    cases hm : matches_report_glob f.1 with
    | false => rfl
    | true =>
      cases hr : rok f.1 with
      | false => simp
      | true =>
        have : ¬ 8 * 86400 ≤ now - f.2 := fun hold => hnot ⟨hm, hold, hr⟩
        have : ¬ 7 < age_days now f.2 := fun hc => this (hage.mp hc)
        simp [this]

/-- Lines 305-312 of `generate_report`: the archival fragment the spec
names `rotate_and_cleanup`.  If a current rich report exists, both current
files are renamed into the day's dated archive names (`shutil.move` keeps
the mtime; it raises, modelled as `Except.error`, when the plain file of
the pair is missing); afterwards the cleanup pass runs.  The boolean
records whether a rotation took place. -/
def rotate_and_cleanup (date : String) (now : Int) (rok : String → Bool)
    (fs : List (String × Int)) : Except Unit (Bool × List (String × Int)) :=
  match fs_lookup fs REPORT_FILE_MD with
  | none => .ok (false, cleanup_old_files now rok fs)
  | some m_md =>
    match fs_lookup fs REPORT_FILE_TXT with
    | none => .error ()
    | some m_txt =>
      .ok (true, cleanup_old_files now rok
        (fs_set (fs_erase (fs_set (fs_erase fs REPORT_FILE_MD) (archive_md date) m_md)
          REPORT_FILE_TXT) (archive_txt date) m_txt))

lemma fs_lookup_eq_none_iff {α : Type} (fs : List (String × α)) (name : String) :
    fs_lookup fs name = none ↔ ∀ f ∈ fs, f.1 ≠ name := by
  simp [fs_lookup, List.find?_eq_none]

lemma fs_lookup_filter_none {α : Type} {fs : List (String × α)} {name : String}
    (p : String × α → Bool) (h : fs_lookup fs name = none) :
    fs_lookup (fs.filter p) name = none := by
  rw [fs_lookup_eq_none_iff] at h ⊢
  exact fun f hf => h f (List.mem_filter.mp hf).1

lemma cleanup_old_files_idem (now : Int) (rok : String → Bool)
    (files : List (String × Int)) :
    cleanup_old_files now rok (cleanup_old_files now rok files) =
      cleanup_old_files now rok files := by
  simp [cleanup_old_files, List.filter_filter]

lemma report_md_ne_archive_md (date : String) : REPORT_FILE_MD ≠ archive_md date := by
  intro h
  have hl := congrArg String.length h
  rw [archive_md, String.length_append, String.length_append] at hl
  have h1 : REPORT_FILE_MD.length = 22 := rfl
  have h2 : "target/tasks_report_".length = 20 := rfl
  have h3 : ".md".length = 3 := rfl
  omega

lemma report_md_ne_archive_txt (date : String) : REPORT_FILE_MD ≠ archive_txt date := by
  intro h
  have hl := congrArg String.length h
  rw [archive_txt, String.length_append, String.length_append] at hl
  have h1 : REPORT_FILE_MD.length = 22 := rfl
  have h2 : "target/tasks_report_".length = 20 := rfl
  have h3 : ".txt".length = 4 := rfl
  omega

lemma report_txt_ne_archive_txt (date : String) : REPORT_FILE_TXT ≠ archive_txt date := by
  intro h
  have hl := congrArg String.length h
  rw [archive_txt, String.length_append, String.length_append] at hl
  have h1 : REPORT_FILE_TXT.length = 23 := rfl
  have h2 : "target/tasks_report_".length = 20 := rfl
  have h3 : ".txt".length = 4 := rfl
  omega

lemma report_txt_ne_archive_md (date : String) : REPORT_FILE_TXT ≠ archive_md date := by
  intro h
  have hc : REPORT_FILE_TXT.data.getLast? = (archive_md date).data.getLast? := by rw [h]
  have h1 : REPORT_FILE_TXT.data.getLast? = some 't' := rfl
  have h2 : (archive_md date).data.getLast? = some 'd' := by
    show (("target/tasks_report_" ++ date) ++ ".md").data.getLast? = some 'd'
    rw [String.data_append, List.getLast?_append]
    rfl
  rw [h1, h2] at hc
  exact absurd hc (by decide)

/-- After a successful `rotate_and_cleanup`, no current rich report remains
(the pair was either moved to its archive names or absent to begin with;
cleanup never touches `tasks_report.md`, which the glob does not match). -/
lemma rotate_and_cleanup_clears_current (date : String) (now : Int)
    (rok : String → Bool) (fs fs1 : List (String × Int)) (m1 : Bool)
    (h : rotate_and_cleanup date now rok fs = .ok (m1, fs1)) :
    fs_lookup fs1 REPORT_FILE_MD = none ∧
      ∃ l, fs1 = cleanup_old_files now rok l := by
  cases hmd : fs_lookup fs REPORT_FILE_MD with
  | none =>
    rw [rotate_and_cleanup, hmd] at h
    obtain ⟨rfl, rfl⟩ : m1 = false ∧ fs1 = cleanup_old_files now rok fs := by
      cases h; exact ⟨rfl, rfl⟩
    exact ⟨fs_lookup_filter_none _ hmd, fs, rfl⟩
  | some m_md =>
    cases htxt : fs_lookup fs REPORT_FILE_TXT with
    | none => rw [rotate_and_cleanup, hmd, htxt] at h; cases h
    | some m_txt =>
      rw [rotate_and_cleanup, hmd, htxt] at h
      set l := fs_set (fs_erase (fs_set (fs_erase fs REPORT_FILE_MD) (archive_md date) m_md)
        REPORT_FILE_TXT) (archive_txt date) m_txt with hl
      obtain ⟨rfl, rfl⟩ : m1 = true ∧ fs1 = cleanup_old_files now rok l := by
        cases h; exact ⟨rfl, rfl⟩
      refine ⟨?_, l, rfl⟩
      apply fs_lookup_filter_none
      rw [fs_lookup_eq_none_iff]
      intro f hf
      rw [hl, fs_set] at hf
      rcases List.mem_cons.mp hf with heq | hmem
      · rw [heq]
        exact fun hc => report_md_ne_archive_txt date hc.symm
      · have hf2 : f ∈ fs_set (fs_erase fs REPORT_FILE_MD) (archive_md date) m_md :=
          (List.mem_filter.mp (List.mem_filter.mp hmem).1).1
        rw [fs_set] at hf2
        rcases List.mem_cons.mp hf2 with heq2 | hmem2
        · rw [heq2]
          exact fun hc => report_md_ne_archive_md date hc.symm
        · have hf3 := (List.mem_filter.mp (List.mem_filter.mp hmem2).1).2
          simpa [bne_iff_ne] using hf3

/-- C8: rotation is idempotent within a day.  If one `rotate_and_cleanup`
pass succeeds (without a new report being written in between), a second
pass with the same date performs no rotation — it finds no current report
pair — and leaves the file system exactly as the first pass left it, so no
second archive copy for the day can appear. -/
theorem c8_rotation_idempotent (date : String) (now : Int) (rok : String → Bool)
    (fs fs1 : List (String × Int)) (m1 : Bool)
    (h : rotate_and_cleanup date now rok fs = .ok (m1, fs1)) :
    rotate_and_cleanup date now rok fs1 = .ok (false, fs1) := by
  obtain ⟨hmd, l, hfs1⟩ := rotate_and_cleanup_clears_current date now rok fs fs1 m1 h
  rw [rotate_and_cleanup, hmd, hfs1, cleanup_old_files_idem]

/-- C8 at a concrete input: rotating a current pair produces the day's
archive pair; the second pass finds nothing to rotate and changes
nothing. -/
theorem c8_rotation_idempotent_witness :
    rotate_and_cleanup "2026_10_12" 0 (fun _ => true)
      [(REPORT_FILE_MD, 0), (REPORT_FILE_TXT, 0)] =
      .ok (true, [(archive_txt "2026_10_12", 0), (archive_md "2026_10_12", 0)]) ∧
    rotate_and_cleanup "2026_10_12" 0 (fun _ => true)
      [(archive_txt "2026_10_12", 0), (archive_md "2026_10_12", 0)] =
      .ok (false, [(archive_txt "2026_10_12", 0), (archive_md "2026_10_12", 0)]) :=
  ⟨rfl,
   c8_rotation_idempotent "2026_10_12" 0 (fun _ => true)
     [(REPORT_FILE_MD, 0), (REPORT_FILE_TXT, 0)]
     [(archive_txt "2026_10_12", 0), (archive_md "2026_10_12", 0)] true rfl⟩

/-! ## File effects of `generate_report` (src/main.py lines 295-361)

To settle the atomicity claim, the body of `generate_report` is embedded as
the sequence of file-system operations it performs, over a file system
mapping names to contents.  A failure partway through the function is
modelled by executing only a prefix of the sequence. -/

inductive FileOp where
  | move (src dst : String)
  | remove (name : String)
  | truncate (name : String)
  | append (name text : String)
deriving DecidableEq, Repr

def apply_op (fs : List (String × String)) : FileOp → List (String × String)
  | .move src dst =>
    match fs_lookup fs src with
    | none => fs
    | some c => fs_set (fs_erase fs src) dst c
  | .remove name => fs_erase fs name
  | .truncate name => fs_set fs name ""
  | .append name s => fs_set fs name ((fs_lookup fs name).getD "" ++ s)

def run_ops (fs : List (String × String)) (ops : List FileOp) : List (String × String) :=
  ops.foldl apply_op fs

/-- Lines 319-344, `write_section` as the write operations it issues:
nothing for an empty bucket, otherwise the two headings, the interleaved
per-task line writes, and the closing blank lines. -/
def write_section_ops (title : String) (projects : List (String × String))
    (tasks : List TaskRecord) : List FileOp :=
  if tasks.isEmpty then []
  else [.append REPORT_FILE_MD ("## " ++ title ++ "\n"),
        .append REPORT_FILE_TXT (title ++ ":\n")] ++
    tasks.flatMap (fun t =>
      [.append REPORT_FILE_MD (task_line_md projects t ++ "\n"),
       .append REPORT_FILE_TXT (task_line_txt projects t ++ "\n")]) ++
    [.append REPORT_FILE_MD "\n", .append REPORT_FILE_TXT "\n"]

/-- Lines 305-356: the operation sequence of one `generate_report` run —
the conditional archival renames (line 306), the removals chosen by the
cleanup pass (line 312; passed in as `cleanup_targets`, their selection is
`cleanup_old_files` above), the truncating opens of both current files
(line 314), then the incremental writes of title, sections and notes. -/
def generate_report_ops (fs : List (String × String)) (date ts : String)
    (cleanup_targets : List String) (projects : List (String × String))
    (high due over : List TaskRecord) (no_due older : Nat) : List FileOp :=
  (if (fs_lookup fs REPORT_FILE_MD).isSome then
    [.move REPORT_FILE_MD (archive_md date), .move REPORT_FILE_TXT (archive_txt date)]
  else []) ++
  cleanup_targets.map .remove ++
  [.truncate REPORT_FILE_MD, .truncate REPORT_FILE_TXT,
   .append REPORT_FILE_MD (report_title ts), .append REPORT_FILE_TXT (report_title ts)] ++
  write_section_ops "High Priority" projects high ++
  write_section_ops "Due Today" projects due ++
  write_section_ops "Overdue (Last 7 Days)" projects over ++
  (if older ≠ 0 then
    [.append REPORT_FILE_MD (older_note_md older), .append REPORT_FILE_TXT (older_note_txt older)]
  else []) ++
  (if no_due ≠ 0 then
    [.append REPORT_FILE_MD (no_due_note_md no_due), .append REPORT_FILE_TXT (no_due_note_txt no_due)]
  else [])

lemma fs_lookup_cons {α : Type} (k : String) (v : α) (fs : List (String × α))
    (name : String) :
    fs_lookup ((k, v) :: fs) name = if k == name then some v else fs_lookup fs name := by
  cases h : (k == name) <;> simp [fs_lookup, List.find?_cons, h]

lemma fs_lookup_erase_ne {α : Type} (fs : List (String × α)) {n name : String}
    (h : name ≠ n) :
    fs_lookup (fs_erase fs n) name = fs_lookup fs name := by
  induction fs with
  | nil => rfl
  | cons a fs ih =>
    obtain ⟨k, v⟩ := a
    by_cases hk : k = n
    · have : (k != n) = false := by simp [hk]
      rw [fs_erase, List.filter_cons, this, if_neg (by simp)]
      rw [fs_lookup_cons, if_neg (by simp [hk]; exact fun hc => h hc.symm)]
      exact ih
    · have : (k != n) = true := by simp [hk]
      rw [fs_erase, List.filter_cons, this, if_pos rfl]
      rw [fs_lookup_cons, fs_lookup_cons]
      cases hkn : (k == name) with
      | true => rfl
      | false => exact ih

lemma fs_lookup_erase_self {α : Type} (fs : List (String × α)) (n : String) :
    fs_lookup (fs_erase fs n) n = none := by
  rw [fs_lookup_eq_none_iff]
  intro f hf
  have := (List.mem_filter.mp hf).2
  simpa [bne_iff_ne] using this

lemma fs_lookup_set_eq {α : Type} (fs : List (String × α)) (n : String) (v : α) :
    fs_lookup (fs_set fs n v) n = some v := by
  rw [fs_set, fs_lookup_cons, if_pos (by simp)]

lemma fs_lookup_set_ne {α : Type} (fs : List (String × α)) {n name : String} (v : α)
    (h : name ≠ n) :
    fs_lookup (fs_set fs n v) name = fs_lookup fs name := by
  rw [fs_set, fs_lookup_cons, if_neg (by simp; exact fun hc => h hc.symm)]
  exact fs_lookup_erase_ne fs h

lemma take_length_add_one {α : Type} (P : List α) (t : α) (rest : List α) :
    (P ++ t :: rest).take (P.length + 1) = P ++ [t] := by
  induction P with
  | nil => simp
  | cons a P ih => simp [ih]

lemma archive_md_ne_archive_txt (date : String) : archive_md date ≠ archive_txt date := by
  intro h
  have hl := congrArg String.length h
  rw [archive_md, archive_txt, String.length_append, String.length_append,
    String.length_append, String.length_append] at hl
  have h3 : ".md".length = 3 := rfl
  have h4 : ".txt".length = 4 := rfl
  omega

/-- C4 (counterexample): report generation is not atomic at the pair level.
Starting from a current pair holding the previous reports, a failure after
the third operation (the two archival renames and the truncating open of
the rich file) leaves the current rich path holding the empty string —
neither the previous report (now only under its dated archive name) nor the
fully written new report — while the plain path does not exist at all. -/
theorem c4_counterexample :
    (let fs0 : List (String × String) :=
       [(REPORT_FILE_MD, "old rich report"), (REPORT_FILE_TXT, "old plain report")]
     let L := generate_report_ops fs0 "2026_10_12" "T" [] []
       [] [⟨"Fix bug", "http://x/1", none, "High"⟩] [] 0 0
     fs_lookup (run_ops fs0 (L.take 3)) REPORT_FILE_MD = some "" ∧
     fs_lookup (run_ops fs0 (L.take 3)) REPORT_FILE_TXT = none ∧
     fs_lookup (run_ops fs0 (L.take 3)) (archive_md "2026_10_12") = some "old rich report" ∧
     fs_lookup (run_ops fs0 L) REPORT_FILE_MD =
       some "# Task Report (T)\n\n## Due Today\n- [ ] [Fix bug](http://x/1), Status: High\n\n" ∧
     ("" : String) ≠
       "# Task Report (T)\n\n## Due Today\n- [ ] [Fix bug](http://x/1), Status: High\n\n") := by
  refine ⟨by decide, by decide, by decide, by decide, by decide⟩

/-- C4 (amended): before any new content is written, an existing current
pair is renamed to the day's dated archive names, and the new files are
then written in place incrementally: after the two renames neither current
path exists and the archives hold the previous contents, and right after
the truncating open the current rich path holds the empty string.  A
failure partway through generation therefore leaves no current pair or a
partially written one; the caller sees the logged and re-raised exception
and must treat the report as possibly incomplete. -/
theorem c4_archival_precedes_in_place_write (fs : List (String × String))
    (date ts : String) (ct : List String) (projects : List (String × String))
    (high due over : List TaskRecord) (no_due older : Nat) (old1 old2 : String)
    (h1 : fs_lookup fs REPORT_FILE_MD = some old1)
    (h2 : fs_lookup fs REPORT_FILE_TXT = some old2) :
    let L := generate_report_ops fs date ts ct projects high due over no_due older
    fs_lookup (run_ops fs (L.take 2)) REPORT_FILE_MD = none ∧
    fs_lookup (run_ops fs (L.take 2)) REPORT_FILE_TXT = none ∧
    fs_lookup (run_ops fs (L.take 2)) (archive_md date) = some old1 ∧
    fs_lookup (run_ops fs (L.take 2)) (archive_txt date) = some old2 ∧
    fs_lookup (run_ops fs (L.take (ct.length + 3))) REPORT_FILE_MD = some "" := by
  intro L
  have hsome : (fs_lookup fs REPORT_FILE_MD).isSome = true := by rw [h1]; rfl
  have hL : L =
      [.move REPORT_FILE_MD (archive_md date), .move REPORT_FILE_TXT (archive_txt date)] ++
        (ct.map .remove ++
          (.truncate REPORT_FILE_MD ::
            ([.truncate REPORT_FILE_TXT,
              .append REPORT_FILE_MD (report_title ts),
              .append REPORT_FILE_TXT (report_title ts)] ++
             write_section_ops "High Priority" projects high ++
             write_section_ops "Due Today" projects due ++
             write_section_ops "Overdue (Last 7 Days)" projects over ++
             (if older ≠ 0 then
               [.append REPORT_FILE_MD (older_note_md older),
                .append REPORT_FILE_TXT (older_note_txt older)]
             else []) ++
             (if no_due ≠ 0 then
               [.append REPORT_FILE_MD (no_due_note_md no_due),
                .append REPORT_FILE_TXT (no_due_note_txt no_due)]
             else [])))) := by
    show generate_report_ops fs date ts ct projects high due over no_due older = _
    rw [generate_report_ops, if_pos hsome]
    simp [List.append_assoc]
  have hmdtxt : REPORT_FILE_MD ≠ REPORT_FILE_TXT := by decide
  have htxtmd : REPORT_FILE_TXT ≠ REPORT_FILE_MD := by decide
  have htake2 : L.take 2 =
      [.move REPORT_FILE_MD (archive_md date), .move REPORT_FILE_TXT (archive_txt date)] := by
    rw [hL]
    exact List.take_left' rfl
  have hstep1 : apply_op fs (.move REPORT_FILE_MD (archive_md date)) =
      fs_set (fs_erase fs REPORT_FILE_MD) (archive_md date) old1 := by
    simp [apply_op, h1]
  have hlook_txt :
      fs_lookup (fs_set (fs_erase fs REPORT_FILE_MD) (archive_md date) old1)
        REPORT_FILE_TXT = some old2 := by
    rw [fs_lookup_set_ne _ _ (report_txt_ne_archive_md date),
      fs_lookup_erase_ne _ htxtmd]
    exact h2
  have hrun2 : run_ops fs (L.take 2) =
      fs_set (fs_erase (fs_set (fs_erase fs REPORT_FILE_MD) (archive_md date) old1)
        REPORT_FILE_TXT) (archive_txt date) old2 := by
    rw [htake2]
    show apply_op (apply_op fs (.move REPORT_FILE_MD (archive_md date)))
      (.move REPORT_FILE_TXT (archive_txt date)) = _
    rw [hstep1]
    simp [apply_op, hlook_txt]
  refine ⟨?_, ?_, ?_, ?_, ?_⟩
  · rw [hrun2, fs_lookup_set_ne _ _ (report_md_ne_archive_txt date),
      fs_lookup_erase_ne _ hmdtxt,
      fs_lookup_set_ne _ _ (report_md_ne_archive_md date),
      fs_lookup_erase_self]
  · rw [hrun2, fs_lookup_set_ne _ _ (report_txt_ne_archive_txt date),
      fs_lookup_erase_self]
  · rw [hrun2, fs_lookup_set_ne _ _ (archive_md_ne_archive_txt date),
      fs_lookup_erase_ne _ (fun hc => report_txt_ne_archive_md date hc.symm),
      fs_lookup_set_eq]
  · rw [hrun2, fs_lookup_set_eq]
  · rw [hL, ← List.append_assoc]
    have hgen : ∀ P R : List FileOp, P.length = ct.length + 2 →
        fs_lookup
          (run_ops fs ((P ++ (FileOp.truncate REPORT_FILE_MD :: R)).take (ct.length + 3)))
          REPORT_FILE_MD = some "" := by
      intro P R hPlen
      have hidx : ct.length + 3 = P.length + 1 := by omega
      rw [hidx, take_length_add_one, run_ops, List.foldl_append]
      show fs_lookup (apply_op _ (.truncate REPORT_FILE_MD)) REPORT_FILE_MD = some ""
      rw [apply_op]
      exact fs_lookup_set_eq _ _ _
    refine hgen _ _ ?_
    simp [List.length_append, List.length_map]

/-- C4 amended, checked at a concrete input: starting from a current pair,
after the two renames the current paths are gone and the archives hold the
old contents; after the truncating open the rich path holds "". -/
theorem c4_archival_precedes_in_place_write_witness :
    (let fs0 : List (String × String) :=
       [(REPORT_FILE_MD, "old rich report"), (REPORT_FILE_TXT, "old plain report")]
     let L := generate_report_ops fs0 "2026_10_12" "T" [] [] [] [] [] 0 0
     fs_lookup (run_ops fs0 (L.take 2)) REPORT_FILE_MD = none ∧
     fs_lookup (run_ops fs0 (L.take 2)) REPORT_FILE_TXT = none ∧
     fs_lookup (run_ops fs0 (L.take 2)) (archive_md "2026_10_12") = some "old rich report" ∧
     fs_lookup (run_ops fs0 (L.take 2)) (archive_txt "2026_10_12") = some "old plain report" ∧
     fs_lookup (run_ops fs0 (L.take 3)) REPORT_FILE_MD = some "") :=
  c4_archival_precedes_in_place_write
    [(REPORT_FILE_MD, "old rich report"), (REPORT_FILE_TXT, "old plain report")]
    "2026_10_12" "T" [] [] [] [] [] 0 0 "old rich report" "old plain report"
    (by decide) (by decide)

end NotionTasksReport
